import Mathlib

/-!
Verification of the vodozemac language bindings (JavaScript and Python
layers) against their natural-language specification.

The embedding models:
  * the base64 boundary used for all public key material,
  * the error enums and Python-exception conversion layer of
    `src/python/src/lib.rs`,
  * the JavaScript `Account` binding of `src/javascript/src/account.rs`,
    with panics (from `unwrap` / `panic!`) made explicit in a result type,
  * the parts of the cryptographic core that the bindings call but whose
    sources are not part of the binding crate, modelled from the spec.
-/

/-- Value of a single character of the standard base64 alphabet, or `none`
when the character is not in the alphabet. -/
def base64CharValue (c : Char) : Option Nat :=
  if 65 ≤ c.toNat ∧ c.toNat ≤ 90 then some (c.toNat - 65)
  else if 97 ≤ c.toNat ∧ c.toNat ≤ 122 then some (c.toNat - 71)
  else if 48 ≤ c.toNat ∧ c.toNat ≤ 57 then some (c.toNat + 4)
  else if c.toNat = 43 then some 62
  else if c.toNat = 47 then some 63
  else none

/-- Reassemble a list of 6-bit values (one per base64 character, unpadded
encoding) into bytes; fails on lengths or trailing bits no encoder emits. -/
def sextetsToBytes : List Nat → Option (List Nat)
  | [] => some []
  | [_] => none
  | [a, b] => if b % 16 = 0 then some [a * 4 + b / 16] else none
  | [a, b, c] =>
      if c % 4 = 0 then some [a * 4 + b / 16, b % 16 * 16 + c / 4] else none
  | a :: b :: c :: d :: rest =>
      (sextetsToBytes rest).map
        (fun t => (a * 4 + b / 16) :: (b % 16 * 16 + c / 4) :: (c % 4 * 64 + d) :: t)

/-- Decode an unpadded standard-base64 string to bytes. -/
def base64Decode (s : String) : Option (List Nat) :=
  (s.data.mapM base64CharValue).bind sextetsToBytes

/-- `vodozemac::KeyError`: decoding public key material can fail on bad
base64 or on a byte length other than the key size. -/
inductive KeyError where
  | base64Error : KeyError
  | invalidKeyLength (got : Nat) : KeyError
deriving DecidableEq

/-- A Curve25519 public key: exactly 32 bytes of decoded key material. -/
structure Curve25519PublicKey where
  bytes : List Nat
deriving DecidableEq

/-- `vodozemac::Curve25519PublicKey::from_base64`: base64-decode, then
require exactly 32 bytes of key material. -/
def Curve25519PublicKey.from_base64 (s : String) : Except KeyError Curve25519PublicKey :=
  match base64Decode s with
  | none => .error .base64Error
  | some bytes =>
      if bytes.length = 32 then .ok ⟨bytes⟩
      else .error (.invalidKeyLength bytes.length)

/-- One one-time prekey of an account: id, key material, published flag. -/
structure OneTimeKey where
  keyId : Nat
  key : Nat
  published : Bool
deriving DecidableEq

/-- A fallback key: key material plus published flag. -/
structure FallbackKey where
  keyId : Nat
  key : Nat
  published : Bool
deriving DecidableEq

/-- The state of `vodozemac::olm::Account` as far as the bindings observe
it: the identity keypair, the one-time-key pool, the current and previous
fallback keys and the id counter. -/
structure Account where
  curve25519SecretKey : Nat
  ed25519SecretKey : Nat
  oneTimeKeys : List OneTimeKey
  fallbackKey : Option FallbackKey
  previousFallbackKey : Option FallbackKey
  nextKeyId : Nat
deriving DecidableEq

/-- Modelled from the spec: the external primitives provider's key
generation (Curve25519 and Ed25519 keypairs are generated once per
Account from fresh randomness; the randomness is made explicit here as an
entropy argument). `Account::new` cannot fail. -/
def Account.new (entropy : Nat) : Account :=
  { curve25519SecretKey := 2 * entropy + 1
    ed25519SecretKey := 2 * entropy + 2
    oneTimeKeys := []
    fallbackKey := none
    previousFallbackKey := none
    nextKeyId := 0 }

/-- Modelled from the spec: the external primitives provider's Ed25519
signature — a deterministic function of the signing key and the message,
with no failure path. -/
def ed25519Sign (key : Nat) (message : String) : String :=
  toString (message.data.foldl (fun h c => (h * 31 + c.toNat + key) % 1000000007) 7)

/-- `Account::sign` of the JavaScript binding: delegates to the inner
Ed25519 signing operation; returns a plain string, no error path. -/
def Account.sign (a : Account) (message : String) : String :=
  ed25519Sign a.ed25519SecretKey message

/-- `vodozemac::DecodeError`: malformed wire-format bytes of a message
envelope or exported state (not key material). -/
inductive DecodeError where
  | invalidBase64 : DecodeError
  | invalidMessage : DecodeError
  | invalidMessageType (got : Nat) : DecodeError
deriving DecidableEq

/-- `vodozemac::olm::SessionCreationError`: handshake-specific failures of
inbound session creation. -/
inductive SessionCreationError where
  | missingOneTimeKey : SessionCreationError
  | invalidSignature : SessionCreationError
  | mismatchedIdentityKey : SessionCreationError
deriving DecidableEq

/-- `vodozemac::olm::DecryptionError`: authenticated decryption failures of
a pairwise session. -/
inductive OlmDecryptionError where
  | invalidMac : OlmDecryptionError
  | tooBigMessageGap : OlmDecryptionError
deriving DecidableEq

/-- `vodozemac::megolm::DecryptionError`: failures of inbound group-session
decryption (authentication failure or an unrecoverable/rewound index). -/
inductive MegolmCoreDecryptionError where
  | invalidSignature : MegolmCoreDecryptionError
  | invalidMac : MegolmCoreDecryptionError
  | unknownMessageIndex : MegolmCoreDecryptionError
deriving DecidableEq

/-- `vodozemac::megolm::SessionKeyDecodeError`: malformed group-session
export/import payload. -/
inductive SessionKeyDecodeError where
  | invalidBase64 : SessionKeyDecodeError
  | truncated : SessionKeyDecodeError
deriving DecidableEq

/-- `vodozemac::sas::SasError`: failures inside the SAS flow itself. -/
inductive SasCoreError where
  | invalidMac : SasCoreError
deriving DecidableEq

/-- `vodozemac::Base64DecodeError`. -/
inductive Base64DecodeError where
  | invalidCharacter : Base64DecodeError
deriving DecidableEq

/-- `vodozemac::PickleError`: corrupt persisted state. -/
inductive CorePickleError where
  | base64Error : CorePickleError
  | decryptionFailure : CorePickleError
  | truncated : CorePickleError
deriving DecidableEq

/-- The Python exception classes registered by `src/python/src/lib.rs`,
plus the builtin `ValueError` used for `SessionError::InvalidMessageType`. -/
inductive PyExcKind where
  | keyException : PyExcKind
  | decodeException : PyExcKind
  | libolmPickleException : PyExcKind
  | sessionKeyDecodeException : PyExcKind
  | pickleException : PyExcKind
  | sessionCreationException : PyExcKind
  | sasException : PyExcKind
  | olmDecryptionException : PyExcKind
  | megolmDecryptionException : PyExcKind
  | valueError : PyExcKind
deriving DecidableEq

/-- A raised Python exception: its class and its message string. -/
structure PyErr where
  kind : PyExcKind
  message : String
deriving DecidableEq

/-- Display string of a `KeyError` (the `to_string()` the bindings pass to
the exception constructor). -/
def KeyError.message : KeyError → String
  | .base64Error => "failed to decode base64"
  | .invalidKeyLength got => "invalid key length " ++ toString got

/-- Display string of a `DecodeError`. -/
def DecodeError.message : DecodeError → String
  | .invalidBase64 => "failed to decode base64"
  | .invalidMessage => "malformed message"
  | .invalidMessageType got => "invalid message type " ++ toString got

/-- Display string of a `SessionCreationError`. -/
def SessionCreationError.message : SessionCreationError → String
  | .missingOneTimeKey => "the one-time key is missing"
  | .invalidSignature => "the signature check failed"
  | .mismatchedIdentityKey => "mismatched identity key"

/-- Display string of an `OlmDecryptionError`. -/
def OlmDecryptionError.message : OlmDecryptionError → String
  | .invalidMac => "failed to authenticate the message"
  | .tooBigMessageGap => "the message gap is too big"

/-- Display string of a `MegolmCoreDecryptionError`. -/
def MegolmCoreDecryptionError.message : MegolmCoreDecryptionError → String
  | .invalidSignature => "the signature was invalid"
  | .invalidMac => "failed to authenticate the message"
  | .unknownMessageIndex => "the message index is unrecoverable"

/-- `MegolmDecryptionError` of `src/python/src/lib.rs`: the two failure
categories of group-session decryption. -/
inductive MegolmDecryptionError where
  | decode (e : DecodeError) : MegolmDecryptionError
  | decryption (e : MegolmCoreDecryptionError) : MegolmDecryptionError
deriving DecidableEq

/-- `From<MegolmDecryptionError> for PyErr` of `src/python/src/lib.rs`:
`Decode` becomes `DecodeException`, `Decryption` becomes
`MegolmDecryptionException`. -/
def MegolmDecryptionError.toPyErr : MegolmDecryptionError → PyErr
  | .decode e => ⟨.decodeException, e.message⟩
  | .decryption e => ⟨.megolmDecryptionException, e.message⟩

/-- `SasError` of `src/python/src/lib.rs`. -/
inductive SasError where
  | mac (e : Base64DecodeError) : SasError
  | key (e : KeyError) : SasError
  | sas (e : SasCoreError) : SasError
  | used : SasError
deriving DecidableEq

/-- Display string of a `Base64DecodeError`. -/
def Base64DecodeError.message : Base64DecodeError → String
  | .invalidCharacter => "invalid base64 character"

/-- Display string of a `SasCoreError`. -/
def SasCoreError.message : SasCoreError → String
  | .invalidMac => "the SAS MAC was invalid"

/-- Display string of a `SasError` (through its `thiserror` derive). -/
def SasError.message : SasError → String
  | .mac e => e.message
  | .key e => e.message
  | .sas e => e.message
  | .used => "The Sas object has already been used once."

/-- `From<SasError> for PyErr` of `src/python/src/lib.rs`: `Key` becomes
`KeyException`; `Sas`, `Mac` and `Used` all become `SasException`. -/
def SasError.toPyErr : SasError → PyErr
  | .key e => ⟨.keyException, e.message⟩
  | .sas e => ⟨.sasException, e.message⟩
  | .mac e => ⟨.sasException, e.message⟩
  | .used => ⟨.sasException, SasError.used.message⟩

/-- `SessionError` of `src/python/src/lib.rs`. -/
inductive SessionError where
  | key (e : KeyError) : SessionError
  | decode (e : DecodeError) : SessionError
  | decryption (e : OlmDecryptionError) : SessionError
  | creation (e : SessionCreationError) : SessionError
  | invalidMessageType : SessionError
deriving DecidableEq

/-- Display string of a `SessionError`. -/
def SessionError.message : SessionError → String
  | .key e => e.message
  | .decode e => e.message
  | .decryption e => e.message
  | .creation e => e.message
  | .invalidMessageType => "Invalid message type, a pre-key message is needed to create a Session"

/-- `From<SessionError> for PyErr` of `src/python/src/lib.rs`: each variant
goes to its own exception class, except `InvalidMessageType`, which is
raised as the builtin `ValueError`. -/
def SessionError.toPyErr : SessionError → PyErr
  | .key e => ⟨.keyException, e.message⟩
  | .decode e => ⟨.decodeException, e.message⟩
  | .decryption e => ⟨.olmDecryptionException, e.message⟩
  | .creation e => ⟨.sessionCreationException, e.message⟩
  | .invalidMessageType => ⟨.valueError, SessionError.invalidMessageType.message⟩

/-- `PickleError` of `src/python/src/lib.rs`: a wrong unwrap-key size or a
corrupt pickle. -/
inductive PickleError where
  | invalidKeySize (got : Nat) : PickleError
  | unpickling (e : CorePickleError) : PickleError
deriving DecidableEq

/-- Display string of a `CorePickleError`. -/
def CorePickleError.message : CorePickleError → String
  | .base64Error => "failed to decode base64"
  | .decryptionFailure => "failed to decrypt the pickle"
  | .truncated => "the pickle is truncated"

/-- Display string of a `PickleError`. -/
def PickleError.message : PickleError → String
  | .invalidKeySize got =>
      "The pickle key does not have the correct size, got " ++ toString got
        ++ ", expected 32 bytes"
  | .unpickling e => e.message

/-- `From<PickleError> for PyErr` of `src/python/src/lib.rs`: every variant
is raised as `PickleException`. -/
def PickleError.toPyErr (e : PickleError) : PyErr :=
  ⟨.pickleException, e.message⟩

/-- Outcome of a call into the JavaScript (wasm) binding: either a value,
or a process-terminating panic with its message. -/
inductive JsResult (α : Type) where
  | ok (value : α) : JsResult α
  | panic (message : String) : JsResult α
deriving DecidableEq

/-- The message a failed `unwrap` panics with. -/
def unwrapPanicMessage : String := "called unwrap on an error value"

/-- The message of the explicit `panic!` in the JavaScript binding's
`create_inbound_session`. -/
def invalidMessageTypePanicMessage : String := "Invalid message type"

/-- A pairwise double-ratchet session as established by the bindings: the
participants' key material fixed by the handshake. -/
structure Session where
  ourIdentityKey : Nat
  ourEphemeralKey : Nat
  peerIdentityKey : Curve25519PublicKey
  peerOneTimeKey : Nat
deriving DecidableEq

/-- The `OlmMessage` class of `src/python/src/lib.rs` (also the message
shape the JavaScript binding consumes): a message type number and a
base64 ciphertext string, stored verbatim, with no validation. -/
structure OlmMessage where
  ciphertext : String
  message_type : Nat
deriving DecidableEq

/-- `OlmMessage::new` of `src/python/src/lib.rs`: stores both fields as
given. -/
def OlmMessage.new (message_type : Nat) (ciphertext : String) : OlmMessage :=
  { ciphertext := ciphertext, message_type := message_type }

/-- The parsed pre-key/normal message envelope: a tagged union of a
pre-key message (handshake data: the referenced one-time key id plus the
inner ciphertext bytes) or a normal message (ciphertext bytes only). -/
inductive OlmWireMessage where
  | preKey (oneTimeKeyId : Nat) (body : List Nat) : OlmWireMessage
  | normal (body : List Nat) : OlmWireMessage
deriving DecidableEq

/-- Modelled from the spec:
`vodozemac::olm::OlmMessage::from_type_and_ciphertext` (the envelope
parser of the core, whose source is not part of the binding crate).
Message type 0 is a pre-key message carrying handshake data, type 1 a
normal message; malformed base64 or an empty pre-key envelope is a
`DecodeError`, as is any other type number. -/
def olmMessageFromTypeAndCiphertext (t : Nat) (c : String) : Except DecodeError OlmWireMessage :=
  match base64Decode c with
  | none => .error .invalidBase64
  | some bytes =>
      if t = 0 then
        match bytes with
        | id :: body => .ok (.preKey id body)
        | [] => .error .invalidMessage
      else if t = 1 then .ok (.normal bytes)
      else .error (.invalidMessageType t)

/-- Modelled from the spec: the core's outbound session establishment
(`vodozemac::olm::Account::create_outbound_session`) — key agreement of
the local identity and a fresh local ephemeral key against the peer's
decoded identity and one-time keys; cannot fail on decoded keys. -/
def olmCreateOutbound (a : Account) (ik otk : Curve25519PublicKey) : Session :=
  { ourIdentityKey := a.curve25519SecretKey
    ourEphemeralKey := a.curve25519SecretKey + a.nextKeyId + 1
    peerIdentityKey := ik
    peerOneTimeKey := otk.bytes.sum }

/-- Modelled from the spec: the core's inbound session establishment
(`vodozemac::olm::Account::create_inbound_session`) — mirrors the
outbound computation using the one-time key referenced by the pre-key
message and consumes that key; fails with a `SessionCreationError` when
the referenced one-time key is unknown or already consumed. -/
def olmCreateInbound (a : Account) (ik : Curve25519PublicKey) (oneTimeKeyId : Nat)
    (body : List Nat) : Except SessionCreationError (Session × Account) :=
  match a.oneTimeKeys.find? (fun k => k.keyId = oneTimeKeyId) with
  | none => .error .missingOneTimeKey
  | some k =>
      .ok
        ({ ourIdentityKey := a.curve25519SecretKey
           ourEphemeralKey := k.key + body.sum
           peerIdentityKey := ik
           peerOneTimeKey := k.key },
          { a with oneTimeKeys := a.oneTimeKeys.filter (fun x => x.keyId ≠ oneTimeKeyId) })

/-- `Account::create_outbound_session` of `src/javascript/src/account.rs`:
decodes both keys with `unwrap` (a panic on malformed base64 or wrong key
length), then builds the session; takes the account by shared reference,
so the returned account state is the argument unchanged. -/
def Account.create_outbound_session (a : Account) (identity_key : String)
    (one_time_key : String) : JsResult Session × Account :=
  match Curve25519PublicKey.from_base64 identity_key with
  | .error _ => (.panic unwrapPanicMessage, a)
  | .ok ik =>
      match Curve25519PublicKey.from_base64 one_time_key with
      | .error _ => (.panic unwrapPanicMessage, a)
      | .ok otk => (.ok (olmCreateOutbound a ik otk), a)

/-- `Account::create_inbound_session` of `src/javascript/src/account.rs`:
decodes the identity key with `unwrap`, parses the message with `unwrap`,
panics with "Invalid message type" on a normal message, and unwraps the
core's session-creation result. -/
def Account.create_inbound_session (a : Account) (identity_key : String)
    (message : OlmMessage) : JsResult Session × Account :=
  match Curve25519PublicKey.from_base64 identity_key with
  | .error _ => (.panic unwrapPanicMessage, a)
  | .ok ik =>
      match olmMessageFromTypeAndCiphertext message.message_type message.ciphertext with
      | .error _ => (.panic unwrapPanicMessage, a)
      | .ok (.preKey id body) =>
          match olmCreateInbound a ik id body with
          | .error _ => (.panic unwrapPanicMessage, a)
          | .ok (s, a2) => (.ok s, a2)
      | .ok (.normal _) => (.panic invalidMessageTypePanicMessage, a)

/-- Modelled from the spec: derivation of the public half of a keypair by
the external primitives provider. -/
def publicKeyOf (secret : Nat) : Nat := secret * secret + 1

/-- `Account::ed25519_key` of the JavaScript binding: the encoded public
signing key. -/
def Account.ed25519_key (a : Account) : String :=
  toString (publicKeyOf a.ed25519SecretKey)

/-- `Account::curve25519_key` of the JavaScript binding: the encoded public
identity key. -/
def Account.curve25519_key (a : Account) : String :=
  toString (publicKeyOf a.curve25519SecretKey)

/-- `Account::one_time_keys` of the JavaScript binding: the map of
currently unpublished one-time keys, as (key id, public key) pairs. -/
def Account.one_time_keys (a : Account) : List (Nat × Nat) :=
  (a.oneTimeKeys.filter (fun k => !k.published)).map
    (fun k => (k.keyId, publicKeyOf k.key))

/-- `Account::fallback_key` of the JavaScript binding: the unpublished
fallback key, as a (key id, public key) map. -/
def Account.fallback_key (a : Account) : List (Nat × Nat) :=
  match a.fallbackKey with
  | none => []
  | some k => if k.published then [] else [(k.keyId, publicKeyOf k.key)]

/-- Modelled from the spec: `Account::create_inbound_session` of the
Python binding (its account module is not among the sources). Decodes the
identity key (a `KeyError` surfaces as `SessionError::Key`), parses the
message (a `DecodeError` surfaces as `SessionError::Decode`), rejects a
normal message with `SessionError::InvalidMessageType`, and wraps core
handshake failures as `SessionError::Creation`. -/
def Account.create_inbound_session_py (a : Account) (identity_key : String)
    (message : OlmMessage) : Except SessionError (Session × Account) :=
  match Curve25519PublicKey.from_base64 identity_key with
  | .error e => .error (.key e)
  | .ok ik =>
      match olmMessageFromTypeAndCiphertext message.message_type message.ciphertext with
      | .error e => .error (.decode e)
      | .ok (.preKey id body) =>
          match olmCreateInbound a ik id body with
          | .error e => .error (.creation e)
          | .ok r => .ok r
      | .ok (.normal _) => .error .invalidMessageType

/-- Modelled from the spec: the external primitives provider's Curve25519
Diffie-Hellman, combining a local secret with a decoded peer public key. -/
def curve25519DH (secret : Nat) (pk : Curve25519PublicKey) : Nat :=
  secret * (pk.bytes.sum + 1) + 1

/-- Modelled from the spec: the SAS MAC derivation over the shared secret
and an info string. -/
def sasMac (secret : Nat) (info : String) : String :=
  toString (info.data.foldl (fun h c => (h * 33 + c.toNat) % 998244353) secret)

/-- Modelled from the spec: the SAS verification state of the Python
binding (its sas module is not among the sources) — an ephemeral secret
key, the derived shared secret once keys are exchanged, and the one-shot
used flag; once the flag is set the state is permanently inert. -/
structure Sas where
  ourSecretKey : Nat
  sharedSecret : Option Nat
  used : Bool
deriving DecidableEq

/-- Modelled from the spec: `Sas::diffie_hellman` — fails with `Used` once
the flow is spent, with a `KeyError` on a malformed peer key, and
otherwise records the shared secret. -/
def Sas.diffie_hellman (s : Sas) (key : String) : Except SasError Sas :=
  if s.used then .error .used
  else
    match Curve25519PublicKey.from_base64 key with
    | .error e => .error (.key e)
    | .ok pk => .ok { s with sharedSecret := some (curve25519DH s.ourSecretKey pk) }

/-- Modelled from the spec: `Sas::calculate_mac` — can only succeed once;
it sets the one-shot flag, and any call on a spent (or not yet
established) state fails with `Used`. -/
def Sas.calculate_mac (s : Sas) (info : String) : Except SasError (String × Sas) :=
  if s.used then .error .used
  else
    match s.sharedSecret with
    | none => .error .used
    | some secret => .ok (sasMac secret info, { s with used := true })

/-- Modelled from the spec: `Sas::verify_mac` — recomputes the MAC and
compares; a mismatch is a SAS verification failure, and a spent state
fails with `Used`. -/
def Sas.verify_mac (s : Sas) (theirMac : String) (info : String) : Except SasError Sas :=
  if s.used then .error .used
  else
    match s.sharedSecret with
    | none => .error .used
    | some secret =>
        if theirMac = sasMac secret info then .ok { s with used := true }
        else .error (.sas .invalidMac)

/-- Modelled from the spec: the core's account unpickling — base64 decode
of the opaque blob, an authenticated unwrapping step against the pickle
key, then reconstruction of the account fields; truncated or corrupt
input is a `vodozemac::PickleError`. -/
def accountCoreUnpickle (pickle : String) (key : List Nat) : Except CorePickleError Account :=
  match base64Decode pickle with
  | none => .error .base64Error
  | some bytes =>
      match bytes with
      | tag :: ck :: ek :: nk :: _rest =>
          if tag = key.sum % 256 then
            .ok
              { curve25519SecretKey := ck
                ed25519SecretKey := ek
                oneTimeKeys := []
                fallbackKey := none
                previousFallbackKey := none
                nextKeyId := nk }
          else .error .decryptionFailure
      | _ => .error .truncated

/-- Modelled from the spec: `Account::from_pickle` of the Python binding
(its account module is not among the sources) — the unwrap key must be
exactly 32 bytes (`PickleError::InvalidKeySize` otherwise), and core
unpickling failures surface as `PickleError::Unpickling`. -/
def Account.from_pickle (pickle : String) (pickle_key : List Nat) : Except PickleError Account :=
  if pickle_key.length = 32 then
    match accountCoreUnpickle pickle pickle_key with
    | .error e => .error (.unpickling e)
    | .ok a => .ok a
  else .error (.invalidKeySize pickle_key.length)

/-- The inbound group-session state the Megolm decryption path needs: the
sender's verification key, the first known ratchet index and the ratchet
material. -/
structure InboundGroupSession where
  signingKey : Nat
  firstKnownIndex : Nat
  ratchetSeed : Nat
deriving DecidableEq

/-- Modelled from the spec: the external primitives provider's Ed25519
signature value over group-message bytes. -/
def megolmSign (key : Nat) (data : List Nat) : Nat :=
  (data.foldl (fun h b => h * 131 + b) key) % 1000003

/-- Modelled from the spec: the message key derived from the group ratchet
at a given index. -/
def megolmMessageKey (seed : Nat) (idx : Nat) : Nat := seed + idx

/-- Modelled from the spec: the wire parse of a group message envelope —
base64 bytes carrying the message index, the ciphertext body and the
trailing signature value; malformed bytes are a `DecodeError`. -/
def parseMegolmMessage (s : String) : Except DecodeError (Nat × List Nat × Nat) :=
  match base64Decode s with
  | none => .error .invalidBase64
  | some bytes =>
      match bytes with
      | [] => .error .invalidMessage
      | [_] => .error .invalidMessage
      | idx :: rest => .ok (idx, rest.dropLast, rest.getLastD 0)

/-- Modelled from the spec: `InboundGroupSession::decrypt` of the Python
binding (its group-sessions module is not among the sources) — parse the
envelope (`Decode` category), verify the signature first, reject an index
before the first known one as unrecoverable (`Decryption` category), and
otherwise return the plaintext bytes with the message index. -/
def InboundGroupSession.decrypt (s : InboundGroupSession) (message : String) :
    Except MegolmDecryptionError (List Nat × Nat) :=
  match parseMegolmMessage message with
  | .error e => .error (.decode e)
  | .ok (idx, body, sig) =>
      if sig = megolmSign s.signingKey (idx :: body) then
        if s.firstKnownIndex ≤ idx then
          .ok (body.map (fun b => (b + megolmMessageKey s.ratchetSeed idx) % 256), idx)
        else .error (.decryption .unknownMessageIndex)
      else .error (.decryption .invalidSignature)

/-- `Account::sign` as a binding call: the account is taken by shared
reference and the operation has no failure path, so the call returns a
plain value and the account unchanged. -/
def Account.signCall (a : Account) (message : String) : JsResult String × Account :=
  (.ok (Account.sign a message), a)

/-- A 43-character unpadded base64 string decoding to 32 zero bytes: a
well-formed Curve25519 key encoding. -/
def validKeyB64 : String := "AAAAAAAAAAAAAAAAAAAAAAAAAAAAAAAAAAAAAAAAAAA"

/-- A string that is not valid base64. -/
def malformedKeyA : String := "!"

/-- Another string that is not valid base64. -/
def malformedKeyB : String := "not a base64 key"

/-- A third string that is not valid base64. -/
def malformedKeyC : String := "*"

/-- A well-formed base64 ciphertext decoding to the single byte 0. -/
def normalCiphertextA : String := "AA"

/-- A well-formed base64 ciphertext decoding to the single byte 1. -/
def normalCiphertextB : String := "AQ"

/-- An info string for the SAS MAC step. -/
def sasInfoA : String := "SAS_INFO_A"

/-- A corrupt pickle blob (not valid base64). -/
def corruptPickle : String := "???"

/-- A 31-byte unwrap key (one byte short of the accepted size). -/
def pickleKey31 : List Nat := List.replicate 31 7

/-- A 32-byte unwrap key of the accepted size. -/
def pickleKey32 : List Nat := List.replicate 32 7

/-- A group message whose envelope parses (index 0, body byte 0) but whose
signature value 0 does not verify. -/
def megolmBadSignatureMessage : String := "AAAA"

/-- Claim C1, counterexample: at the concrete malformed key input
`malformedKeyB` (for both keys), the JavaScript binding's
`create_outbound_session` panics — it does not return a `KeyError` to the
caller, so the claim as stated is false on this code. -/
theorem c1_counterexample :
    ((Account.new 0).create_outbound_session malformedKeyB malformedKeyB).1
      = JsResult.panic unwrapPanicMessage := rfl

/-- Claim C1, amended: for every call to the JavaScript binding's
`Account::create_outbound_session` with a peer identity key or one-time
key that is not valid base64-encoded Curve25519 key material, the
operation panics (an unchecked `unwrap`) instead of returning a
`KeyError` to the caller. -/
theorem c1_outbound_panics_on_malformed_key (a : Account) (ik otk : String) (e : KeyError)
    (h : Curve25519PublicKey.from_base64 ik = Except.error e
        ∨ Curve25519PublicKey.from_base64 otk = Except.error e) :
    (Account.create_outbound_session a ik otk).1 = JsResult.panic unwrapPanicMessage := by
  cases hik : Curve25519PublicKey.from_base64 ik with
  | error e2 => simp [Account.create_outbound_session, hik]
  | ok k =>
      cases hotk : Curve25519PublicKey.from_base64 otk with
      | error e2 => simp [Account.create_outbound_session, hik, hotk]
      | ok k2 =>
          rcases h with h | h
          · rw [hik] at h; exact absurd h (by simp)
          · rw [hotk] at h; exact absurd h (by simp)

/-- Claim C1, witness for the amended theorem at a concrete malformed
identity key. -/
theorem c1_outbound_panics_witness :
    ((Account.new 0).create_outbound_session malformedKeyA validKeyB64).1
      = JsResult.panic unwrapPanicMessage :=
  c1_outbound_panics_on_malformed_key (Account.new 0) malformedKeyA validKeyB64
    KeyError.base64Error (Or.inl rfl)

/-- Claim C2, counterexample: wrong message type on inbound creation does
not surface as a `SessionCreationError`: the Python layer maps
`SessionError::InvalidMessageType` to the builtin `ValueError` (a class
distinct from `SessionCreationException`), and the JavaScript binding
panics at a concrete Normal-type message. -/
theorem c2_counterexample :
    SessionError.invalidMessageType.toPyErr.kind = PyExcKind.valueError
    ∧ PyExcKind.valueError ≠ PyExcKind.sessionCreationException
    ∧ ((Account.new 2).create_inbound_session validKeyB64 (OlmMessage.new 1 normalCiphertextB)).1
        = JsResult.panic invalidMessageTypePanicMessage :=
  ⟨rfl, by decide, rfl⟩

/-- Claim C2, amended: for every call to `Account::create_inbound_session`
with a message of Normal type, the operation fails, but not with a
`SessionCreationError`: the Python binding returns
`SessionError::InvalidMessageType`, raised as the builtin `ValueError`
rather than `SessionCreationException`, and the JavaScript binding panics
with "Invalid message type". -/
theorem c2_wrong_message_type_not_creation_error (a : Account) (ik : String) (m : OlmMessage)
    (body : List Nat)
    (hik : ∃ k, Curve25519PublicKey.from_base64 ik = Except.ok k)
    (hm : olmMessageFromTypeAndCiphertext m.message_type m.ciphertext
        = Except.ok (OlmWireMessage.normal body)) :
    Account.create_inbound_session_py a ik m = Except.error SessionError.invalidMessageType
    ∧ SessionError.invalidMessageType.toPyErr.kind = PyExcKind.valueError
    ∧ PyExcKind.valueError ≠ PyExcKind.sessionCreationException
    ∧ (Account.create_inbound_session a ik m).1 = JsResult.panic invalidMessageTypePanicMessage := by
  obtain ⟨k, hk⟩ := hik
  refine ⟨?_, rfl, by decide, ?_⟩
  · simp [Account.create_inbound_session_py, hk, hm]
  · simp [Account.create_inbound_session, hk, hm]

/-- Claim C2, witness for the amended theorem at a concrete Normal-type
message. -/
theorem c2_wrong_message_type_witness :
    Account.create_inbound_session_py (Account.new 1) validKeyB64 (OlmMessage.new 1 normalCiphertextA)
        = Except.error SessionError.invalidMessageType
    ∧ SessionError.invalidMessageType.toPyErr.kind = PyExcKind.valueError
    ∧ PyExcKind.valueError ≠ PyExcKind.sessionCreationException
    ∧ ((Account.new 1).create_inbound_session validKeyB64 (OlmMessage.new 1 normalCiphertextA)).1
        = JsResult.panic invalidMessageTypePanicMessage :=
  c2_wrong_message_type_not_creation_error (Account.new 1) validKeyB64
    (OlmMessage.new 1 normalCiphertextA) [0] ⟨⟨List.replicate 32 0⟩, rfl⟩ rfl

/-- Claim C3, counterexample: at a concrete malformed identity key, the
JavaScript binding's `create_inbound_session` terminates with a panic, so
not every operation returns its failure as a typed error. -/
theorem c3_counterexample :
    ((Account.new 3).create_inbound_session malformedKeyC (OlmMessage.new 0 normalCiphertextA)).1
      = JsResult.panic unwrapPanicMessage := rfl

/-- Claim C3, amended: the JavaScript binding's `create_outbound_session`
succeeds exactly when both supplied keys decode, and panics (instead of
reporting an error) exactly otherwise; its `create_inbound_session`
panics on every Normal-type message that reaches the type check. -/
theorem c3_js_panic_characterization (a : Account) (ik otk : String) (m : OlmMessage) :
    ((∃ s, (Account.create_outbound_session a ik otk).1 = JsResult.ok s)
      ↔ (∃ k, Curve25519PublicKey.from_base64 ik = Except.ok k)
        ∧ (∃ k, Curve25519PublicKey.from_base64 otk = Except.ok k))
    ∧ ((Account.create_outbound_session a ik otk).1 = JsResult.panic unwrapPanicMessage
      ↔ ¬ ((∃ k, Curve25519PublicKey.from_base64 ik = Except.ok k)
            ∧ (∃ k, Curve25519PublicKey.from_base64 otk = Except.ok k)))
    ∧ (∀ body,
        olmMessageFromTypeAndCiphertext m.message_type m.ciphertext
            = Except.ok (OlmWireMessage.normal body)
        → (∃ k, Curve25519PublicKey.from_base64 ik = Except.ok k)
        → (Account.create_inbound_session a ik m).1
            = JsResult.panic invalidMessageTypePanicMessage) := by
  cases hik : Curve25519PublicKey.from_base64 ik with
  | error e =>
      refine ⟨?_, ?_, ?_⟩
      · simp [Account.create_outbound_session, hik]
      · simp [Account.create_outbound_session, hik]
      · intro body _ hk
        obtain ⟨k, hk⟩ := hk
        exact absurd hk (by simp)
  | ok k =>
      cases hotk : Curve25519PublicKey.from_base64 otk with
      | error e =>
          refine ⟨?_, ?_, ?_⟩
          · simp [Account.create_outbound_session, hik, hotk]
          · simp [Account.create_outbound_session, hik, hotk]
          · intro body hm _
            simp [Account.create_inbound_session, hik, hm]
      | ok k2 =>
          refine ⟨?_, ?_, ?_⟩
          · simp [Account.create_outbound_session, hik, hotk]
          · simp [Account.create_outbound_session, hik, hotk]
          · intro body hm _
            simp [Account.create_inbound_session, hik, hm]

/-- Claim C3, witness for the amended theorem: a Normal-type message with
a well-formed identity key panics with "Invalid message type". -/
theorem c3_js_panic_witness :
    ((Account.new 4).create_inbound_session validKeyB64 (OlmMessage.new 1 normalCiphertextA)).1
      = JsResult.panic invalidMessageTypePanicMessage :=
  (c3_js_panic_characterization (Account.new 4) validKeyB64 validKeyB64
      (OlmMessage.new 1 normalCiphertextA)).2.2 [0] rfl ⟨⟨List.replicate 32 0⟩, rfl⟩

/-- Claim C4: once a SAS instance's one-shot MAC step has happened, every
subsequent operation — a second `calculate_mac` in particular, but also
`diffie_hellman` and `verify_mac` — fails with `Used`, and `Used` is
raised under `SasException`, a class distinct from the key and decode
exception classes. -/
theorem c4_sas_used_once (s s2 : Sas) (info mac : String)
    (h : Sas.calculate_mac s info = Except.ok (mac, s2)) :
    (∀ info2, Sas.calculate_mac s2 info2 = Except.error SasError.used)
    ∧ (∀ key, Sas.diffie_hellman s2 key = Except.error SasError.used)
    ∧ (∀ theirMac info3, Sas.verify_mac s2 theirMac info3 = Except.error SasError.used)
    ∧ SasError.used.toPyErr.kind = PyExcKind.sasException
    ∧ PyExcKind.sasException ≠ PyExcKind.keyException
    ∧ PyExcKind.sasException ≠ PyExcKind.decodeException := by
  have hused : s2.used = true := by
    unfold Sas.calculate_mac at h
    by_cases hu : s.used = true
    · simp [hu] at h
    · simp [hu] at h
      cases hs : s.sharedSecret with
      | none => rw [hs] at h; simp at h
      | some sec =>
          rw [hs] at h
          simp at h
          rw [← h.2]
  refine ⟨?_, ?_, ?_, rfl, by decide, by decide⟩
  · intro info2; simp [Sas.calculate_mac, hused]
  · intro key; simp [Sas.diffie_hellman, hused]
  · intro theirMac info3; simp [Sas.verify_mac, hused]

/-- Claim C4, witness: a concrete established SAS state, once spent by a
successful `calculate_mac`, rejects a second `calculate_mac` with `Used`,
and `Used` is raised as `SasException`. -/
theorem c4_sas_used_once_witness :
    Sas.calculate_mac ⟨5, some 7, true⟩ sasInfoA = Except.error SasError.used
    ∧ SasError.used.toPyErr.kind = PyExcKind.sasException := by
  have h := c4_sas_used_once ⟨5, some 7, false⟩ ⟨5, some 7, true⟩ sasInfoA
    (sasMac 7 sasInfoA) rfl
  exact ⟨h.1 sasInfoA, h.2.2.2.1⟩

/-- Claim C5: unpickling accepts exactly one unwrap-key size — a key whose
length is not 32 fails with `PickleError::InvalidKeySize`, a corrupt or
truncated pickle fails with `PickleError::Unpickling`, and every
`PickleError` is raised as `PickleException` and no other class. -/
theorem c5_pickle_error_handling (pickle : String) (key : List Nat) :
    (key.length ≠ 32
      → Account.from_pickle pickle key = Except.error (PickleError.invalidKeySize key.length))
    ∧ (∀ ce, key.length = 32 → accountCoreUnpickle pickle key = Except.error ce
        → Account.from_pickle pickle key = Except.error (PickleError.unpickling ce))
    ∧ (∀ e, Account.from_pickle pickle key = Except.error e
        → e.toPyErr.kind = PyExcKind.pickleException) := by
  refine ⟨?_, ?_, ?_⟩
  · intro h; simp [Account.from_pickle, h]
  · intro ce h hc; simp [Account.from_pickle, h, hc]
  · intro e _; rfl

/-- Claim C5, witness: a 31-byte key is rejected with `InvalidKeySize`, a
corrupt pickle under a 32-byte key is rejected with `Unpickling`, and the
error is raised as `PickleException`. -/
theorem c5_pickle_error_witness :
    Account.from_pickle corruptPickle pickleKey31 = Except.error (PickleError.invalidKeySize 31)
    ∧ Account.from_pickle corruptPickle pickleKey32
        = Except.error (PickleError.unpickling CorePickleError.base64Error)
    ∧ (PickleError.invalidKeySize 31).toPyErr.kind = PyExcKind.pickleException := by
  have h1 := (c5_pickle_error_handling corruptPickle pickleKey31).1 (by decide)
  have h2 := (c5_pickle_error_handling corruptPickle pickleKey32).2.1
    CorePickleError.base64Error rfl rfl
  have h3 := (c5_pickle_error_handling corruptPickle pickleKey31).2.2
    (PickleError.invalidKeySize 31) h1
  exact ⟨h1, h2, h3⟩

/-- Claim C6: group-session decryption keeps its two failure categories
apart at the caller — a malformed envelope fails with the `Decode`
category raised as `DecodeException`, every `Decryption`-category failure
(signature mismatch, unrecoverable index) is raised as
`MegolmDecryptionException` and only `Decode` causes ever reach
`DecodeException`, and the two classes are distinct. -/
theorem c6_megolm_error_categories (s : InboundGroupSession) (message : String) :
    (∀ e, parseMegolmMessage message = Except.error e
        → InboundGroupSession.decrypt s message = Except.error (MegolmDecryptionError.decode e)
          ∧ (MegolmDecryptionError.decode e).toPyErr.kind = PyExcKind.decodeException)
    ∧ (∀ e, InboundGroupSession.decrypt s message
            = Except.error (MegolmDecryptionError.decryption e)
        → (∃ v, parseMegolmMessage message = Except.ok v)
          ∧ (MegolmDecryptionError.decryption e).toPyErr.kind
              = PyExcKind.megolmDecryptionException)
    ∧ (∀ e : MegolmDecryptionError,
        e.toPyErr.kind = PyExcKind.decodeException ↔ ∃ d, e = MegolmDecryptionError.decode d)
    ∧ PyExcKind.decodeException ≠ PyExcKind.megolmDecryptionException := by
  refine ⟨?_, ?_, ?_, by decide⟩
  · intro e he
    exact ⟨by simp [InboundGroupSession.decrypt, he], rfl⟩
  · intro e he
    refine ⟨?_, rfl⟩
    cases hp : parseMegolmMessage message with
    | error e2 => simp [InboundGroupSession.decrypt, hp] at he
    | ok v => exact ⟨v, rfl⟩
  · intro e
    cases e with
    | decode d => simp [MegolmDecryptionError.toPyErr]
    | decryption d =>
        constructor
        · intro hk; simp [MegolmDecryptionError.toPyErr] at hk
        · rintro ⟨d2, hd⟩; cases hd

/-- Claim C6, witness: a non-base64 envelope fails in the `Decode`
category (`DecodeException`), while a parsed envelope with a bad
signature fails in the `Decryption` category
(`MegolmDecryptionException`). -/
theorem c6_megolm_error_witness :
    InboundGroupSession.decrypt ⟨5, 0, 0⟩ malformedKeyA
        = Except.error (MegolmDecryptionError.decode DecodeError.invalidBase64)
    ∧ InboundGroupSession.decrypt ⟨5, 0, 0⟩ megolmBadSignatureMessage
        = Except.error (MegolmDecryptionError.decryption MegolmCoreDecryptionError.invalidSignature)
    ∧ (MegolmDecryptionError.decode DecodeError.invalidBase64).toPyErr.kind
        = PyExcKind.decodeException
    ∧ (MegolmDecryptionError.decryption MegolmCoreDecryptionError.invalidSignature).toPyErr.kind
        = PyExcKind.megolmDecryptionException := by
  have h1 := (c6_megolm_error_categories ⟨5, 0, 0⟩ malformedKeyA).1 DecodeError.invalidBase64 rfl
  have h2 := (c6_megolm_error_categories ⟨5, 0, 0⟩ megolmBadSignatureMessage).2.1
    MegolmCoreDecryptionError.invalidSignature rfl
  exact ⟨h1.1, rfl, h1.2, h2.2⟩

/-- Claim C7: `Account::sign` is total and deterministic — the binding
call always returns a signature (no error or panic outcome), leaves the
account unchanged, and a second invocation on the same account with the
same message returns the same signature. -/
theorem c7_sign_deterministic_and_total (a : Account) (m : String) :
    (∃ sig, (Account.signCall a m).1 = JsResult.ok sig)
    ∧ (Account.signCall a m).2 = a
    ∧ (Account.signCall (Account.signCall a m).2 m).1 = (Account.signCall a m).1 :=
  ⟨⟨Account.sign a m, rfl⟩, rfl, rfl⟩

/-- Claim C8: `Account::new` cannot fail — it is a total function of the
generation entropy producing a fresh account: an identity keypair with
two distinct newly generated keys, an empty one-time-key pool and no
fallback key. -/
theorem c8_account_new_cannot_fail (entropy : Nat) :
    (Account.new entropy).oneTimeKeys = []
    ∧ (Account.new entropy).fallbackKey = none
    ∧ (Account.new entropy).previousFallbackKey = none
    ∧ (Account.new entropy).curve25519SecretKey ≠ (Account.new entropy).ed25519SecretKey :=
  ⟨rfl, rfl, rfl, by simp [Account.new]⟩

/-- Claim C9: `OlmMessage::new` performs no validation and is a lossless
round trip — for every message type number and every ciphertext string,
reading the attributes back returns exactly the values passed in. -/
theorem c9_olm_message_roundtrip (t : Nat) (c : String) :
    (OlmMessage.new t c).message_type = t ∧ (OlmMessage.new t c).ciphertext = c :=
  ⟨rfl, rfl⟩

/-- Claim C10: `create_outbound_session` takes the account by shared
reference, so the account state after the call — in particular the
identity keys, the one-time-key pool and the fallback key as the binding
observes them — equals the state before it, for every input. -/
theorem c10_create_outbound_session_frame (a : Account) (ik otk : String) :
    (Account.create_outbound_session a ik otk).2 = a
    ∧ (Account.create_outbound_session a ik otk).2.curve25519_key = a.curve25519_key
    ∧ (Account.create_outbound_session a ik otk).2.ed25519_key = a.ed25519_key
    ∧ (Account.create_outbound_session a ik otk).2.one_time_keys = a.one_time_keys
    ∧ (Account.create_outbound_session a ik otk).2.fallback_key = a.fallback_key := by
  have h : (Account.create_outbound_session a ik otk).2 = a := by
    unfold Account.create_outbound_session
    cases Curve25519PublicKey.from_base64 ik with
    | error e => rfl
    | ok k =>
        cases Curve25519PublicKey.from_base64 otk with
        | error e => rfl
        | ok k2 => rfl
  exact ⟨h, by rw [h], by rw [h], by rw [h], by rw [h]⟩
